import Mathlib

/-!
# Azure-Blob-Inspector: verification of the spec against `client.py`

A shallow embedding of the parts of `src/client.py` that the claims touch:
the `AzureFile` descriptor and its derived fields, the `Download` target
path and chunk/progress loop, `AzureFileBase` (the iterable collection with
its manual cursor, extension filters and search), `AzureClient.List` over a
model of `xmltodict` output, the `DownloadThreaded` unit of work, and the
driver's filter-selection logic.
-/

deriving instance DecidableEq for Except

namespace AzureBlobInspector

/-- `output_dir = "./loot_new"`, the module-level constant (client.py line 26). -/
def output_dir : String := "./loot_new"

/-- Python `str.lower()` on one character (the sources only ever hold
ASCII, where lowering adds 32 to an upper-case letter's code point). -/
def pyLowerChar (c : Char) : Char :=
  if 65 ≤ c.toNat && c.toNat ≤ 90 then Char.ofNat (c.toNat + 32) else c

/-- Python `str.lower()`. -/
def pyLower (s : String) : String :=
  String.mk (s.data.map pyLowerChar)

/-- Python `str.split(sep)` for a one-character separator: split at every
occurrence, keeping empty pieces (never collapsing), always at least one
piece. -/
def splitOnChar (sep : Char) : List Char → List (List Char)
  | [] => [[]]
  | c :: rest =>
    let r := splitOnChar sep rest
    if c = sep then [] :: r
    else
      match r with
      | [] => [[c]]
      | h :: t => (c :: h) :: t

/-- Python `s.split('.')`. -/
def pySplitDot (s : String) : List String :=
  (splitOnChar '.' s.data).map String.mk

/-- A character that may appear in a URL scheme after the initial letter
(letters, digits, `+`, `-`, `.`), per `urllib.parse`. -/
def isSchemeChar (c : Char) : Bool :=
  c.isAlphanum || c = '+' || c = '-' || c = '.'

/-- Whether a character list is a valid URL scheme: nonempty, starts with a
letter, rest scheme characters. -/
def validScheme : List Char → Bool
  | [] => false
  | c :: cs => c.isAlpha && cs.all isSchemeChar

/-- Given the URL text after the scheme has been stripped, extract the path
component: if it starts with `//` the netloc runs to the next `/`, `?` or
`#` and the path follows up to `?` or `#`; otherwise the path starts
immediately.  Models `urllib.parse.urlparse(...).path`. -/
def pathAfterScheme (cs : List Char) : List Char :=
  if cs.take 2 = ['/', '/'] then
    let afterNetloc := (cs.drop 2).dropWhile (fun c => c ≠ '/' && c ≠ '?' && c ≠ '#')
    afterNetloc.takeWhile (fun c => c ≠ '?' && c ≠ '#')
  else
    cs.takeWhile (fun c => c ≠ '?' && c ≠ '#')

/-- The path component of a URL, as `urllib.parse.urlparse(url).path`
computes it for the URLs this client sees: an optional `scheme:` is
stripped when the text before the first `:` is a valid scheme, then the
netloc (after `//`) is skipped and the path runs to `?` or `#`. -/
def urlparsePath (url : String) : String :=
  let cs := url.data
  let pre := cs.takeWhile (· ≠ ':')
  let body :=
    if pre.length < cs.length && validScheme pre then cs.drop (pre.length + 1)
    else cs
  ⟨pathAfterScheme body⟩

/-- `AzureFile` (client.py lines 28-38): one blob descriptor.  The
constructor splats the parsed XML entry into attributes; the fields the
program reads are `Account`, `Container`, `Name` and `Url` (remaining
metadata is never consulted by the code under verification). -/
structure AzureFile where
  Account : String
  Container : String
  Name : String
  Url : String
deriving DecidableEq, Repr

/-- `self.filepath = urllib.parse.urlparse(self.Url).path` (line 37). -/
def AzureFile.filepath (f : AzureFile) : String :=
  urlparsePath f.Url

/-- `self.ext = self.Name.split('.')[-1] if len(self.Name.split('.')) > 1 else ""`
(line 38). -/
def AzureFile.ext (f : AzureFile) : String :=
  let parts := pySplitDot f.Name
  if parts.length > 1 then parts.getLastD "" else ""

/-- The destination path computed by `AzureFile.Download` (line 60):
`target_path = output_dir + "/" + self.Account + self.filepath`.
The `target` parameter (line 57) is accepted but never used — the path is
rooted at the module constant `output_dir`. -/
def downloadTargetPath (f : AzureFile) (target : String) : String :=
  let _ := target
  output_dir ++ "/" ++ f.Account ++ f.filepath

/-! ## Response headers and the header phase of `Download` (C2) -/

/-- `resp.headers.get(key)`: requests' header mapping is case-insensitive. -/
def headersGet (headers : List (String × String)) (key : String) : Option String :=
  (headers.find? (fun kv => pyLower kv.1 = pyLower key)).map (·.2)

/-- Parse a nonempty digit string to a number. -/
def digitsToNat? (cs : List Char) : Option Nat :=
  if cs.isEmpty || !cs.all (·.isDigit) then Option.none
  else Option.some (cs.foldl (fun acc c => acc * 10 + (c.toNat - 48)) 0)

/-- Python `int(s)` on a string: an optional sign followed by digits (the
whitespace tolerance of CPython is irrelevant to header values). -/
def pyIntOfStr? (s : String) : Option Int :=
  match s.data with
  | '-' :: rest => (digitsToNat? rest).map (fun n => -(n : Int))
  | '+' :: rest => (digitsToNat? rest).map (fun n => (n : Int))
  | cs => (digitsToNat? cs).map (fun n => (n : Int))

/-- Python `int(x)` applied to the result of `headers.get(...)`: `int(None)`
raises `TypeError`; a non-numeric string raises `ValueError`. -/
def pyIntOfOptStr : Option String → Except String Int
  | Option.none => Except.error "TypeError: int() argument must be a string, not NoneType"
  | Option.some s =>
    match pyIntOfStr? s with
    | Option.some n => Except.ok n
    | Option.none => Except.error "ValueError: invalid literal for int()"

/-- The header phase of `AzureFile.Download` (line 59):
`if get_header_callback: get_header_callback(int(resp.headers.get("content-length")))`.
Returns the list of values passed to the callback, or the exception raised. -/
def downloadHeaderPhase (headers : List (String × String)) (hasHeaderCallback : Bool) :
    Except String (List Int) :=
  if hasHeaderCallback then
    match pyIntOfOptStr (headersGet headers "content-length") with
    | Except.ok n => Except.ok [n]
    | Except.error e => Except.error e
  else Except.ok []

/-! ## A model of `xmltodict` values and Python operations on them (C3, C9) -/

/-- A parsed-XML value as `xmltodict.parse` produces it: a string, a
mapping, a list of values, or `None` (an element with no children). -/
inductive XVal where
  | vstr (s : String)
  | vdict (kvs : List (String × XVal))
  | vlist (xs : List XVal)
  | vnone

/-- The value `xmltodict.parse` stores under the `Blobs` key, given the
blob entries of the listing (each entry the key/value mapping of one
`<Blob>` element): an empty `<Blobs/>` parses to `None`; a single child
collapses to that child's mapping; two or more children become a list. -/
def xmltodictBlobsVal (entries : List (List (String × XVal))) : XVal :=
  match entries with
  | [] => XVal.vnone
  | [b] => XVal.vdict [("Blob", XVal.vdict b)]
  | bs => XVal.vdict [("Blob", XVal.vlist (bs.map XVal.vdict))]

/-- Python subscripting `v[key]`: mappings look the key up (`KeyError` when
absent); `None`, strings and lists are not subscriptable by a string. -/
def pyGetItem (v : XVal) (key : String) : Except String XVal :=
  match v with
  | XVal.vdict kvs =>
    match kvs.find? (fun kv => kv.1 = key) with
    | Option.some kv => Except.ok kv.2
    | Option.none => Except.error ("KeyError: " ++ key)
  | XVal.vnone => Except.error "TypeError: NoneType object is not subscriptable"
  | XVal.vstr _ => Except.error "TypeError: string indices must be integers"
  | XVal.vlist _ => Except.error "TypeError: list indices must be integers"

/-- Python iteration `for b in v`: a list yields its elements, a mapping
yields its KEYS as strings, a string yields its characters, and `None`
is not iterable. -/
def pyIterate (v : XVal) : Except String (List XVal) :=
  match v with
  | XVal.vlist xs => Except.ok xs
  | XVal.vdict kvs => Except.ok (kvs.map (fun kv => XVal.vstr kv.1))
  | XVal.vstr s => Except.ok (s.data.map (fun c => XVal.vstr (String.mk [c])))
  | XVal.vnone => Except.error "TypeError: NoneType object is not iterable"

/-- Assoc-list update used by item assignment on a mapping. -/
def setKey (kvs : List (String × XVal)) (key : String) (v : XVal) :
    List (String × XVal) :=
  if kvs.any (fun kv => kv.1 = key) then
    kvs.map (fun kv => if kv.1 = key then (key, v) else kv)
  else kvs ++ [(key, v)]

/-- Python item assignment `b[key] = v`: only mappings support it; a string
(as obtained by iterating a mapping) raises `TypeError`. -/
def pySetItem (b : XVal) (key : String) (v : XVal) : Except String XVal :=
  match b with
  | XVal.vdict kvs => Except.ok (XVal.vdict (setKey kvs key v))
  | XVal.vstr _ => Except.error "TypeError: str object does not support item assignment"
  | XVal.vlist _ => Except.error "TypeError: list indices must be integers"
  | XVal.vnone => Except.error "TypeError: NoneType object does not support item assignment"

/-- Look a key up in an entry mapping and require a string value. -/
def lookupStr (kvs : List (String × XVal)) (key : String) : Option String :=
  match kvs.find? (fun kv => kv.1 = key) with
  | Option.some (_, XVal.vstr s) => Option.some s
  | _ => Option.none

/-- `AzureFile(**b)` (lines 35-38): the constructor splats the mapping into
attributes and then reads `self.Url` and `self.Name`; `Account` and
`Container` were set by the caller.  A missing field read raises
`AttributeError`. -/
def azureFileOfDict (kvs : List (String × XVal)) : Except String AzureFile :=
  match lookupStr kvs "Account", lookupStr kvs "Container",
        lookupStr kvs "Name", lookupStr kvs "Url" with
  | Option.some a, Option.some c, Option.some n, Option.some u =>
    Except.ok (AzureFile.mk a c n u)
  | _, _, _, _ => Except.error "AttributeError"

/-- `AzureClient.List` (lines 115-121): iterate over
`parsed["EnumerationResults"]["Blobs"]["Blob"]`, set `Account` and
`Container` on each item, and build an `AzureFile` from it.  `entries` are
the `<Blob>` elements of the response, already parsed to mappings. -/
def azureClientList (account container : String)
    (entries : List (List (String × XVal))) : Except String (List AzureFile) := do
  let blobField ← pyGetItem (xmltodictBlobsVal entries) "Blob"
  let items ← pyIterate blobField
  items.mapM (fun b => do
    let b ← pySetItem b "Account" (XVal.vstr account)
    let b ← pySetItem b "Container" (XVal.vstr container)
    match b with
    | XVal.vdict kvs => azureFileOfDict kvs
    | _ => Except.error "TypeError: unexpected entry")

/-! ## `AzureFileBase`: the collection with its manual iterator (C5, C6, C10) -/

/-- `AzureFileBase` (lines 69-83): wraps the backing list `data` and the
iterator cursor `_current` (initialised to 0 by `__init__` and advanced by
`__next__`, never reset). -/
structure AzureFileBase where
  data : List AzureFile
  current : Nat
deriving DecidableEq, Repr

/-- `AzureFileBase(data)` — `__init__` sets `_current = 0`. -/
def AzureFileBase.ofList (l : List AzureFile) : AzureFileBase :=
  AzureFileBase.mk l 0

/-- One `__next__` step (lines 77-83): read `data[_current]`; on
`IndexError` raise `StopIteration` (the cursor is NOT advanced); otherwise
advance the cursor and yield the element.  Since `__iter__` returns `self`
(line 75), the post state is the same object. -/
def AzureFileBase.next? (b : AzureFileBase) : Option (AzureFile × AzureFileBase) :=
  match b.data.get? b.current with
  | Option.none => Option.none
  | Option.some x => Option.some (x, AzureFileBase.mk b.data (b.current + 1))

/-- Run the iterator protocol to exhaustion (what a `for` loop over the
object does): the elements yielded, and the object's state afterwards. -/
def AzureFileBase.drain (b : AzureFileBase) : List AzureFile × AzureFileBase :=
  match h : b.data.get? b.current with
  | Option.none => ([], b)
  | Option.some x =>
    let rest := AzureFileBase.drain (AzureFileBase.mk b.data (b.current + 1))
    (x :: rest.1, rest.2)
termination_by b.data.length - b.current
decreasing_by
  have hlt : b.current < b.data.length := (List.get?_eq_some.mp h).1
  omega

/-- `IncludeExts` (lines 85-86): keep files whose `ext` is in `exts`;
builds a fresh collection (cursor 0) from the full backing list. -/
def AzureFileBase.IncludeExts (b : AzureFileBase) (exts : List String) : AzureFileBase :=
  AzureFileBase.ofList (b.data.filter (fun x => exts.contains x.ext))

/-- `ExcludeExts` (lines 88-89): drop files whose `ext` is in `exts`;
builds a fresh collection (cursor 0) from the full backing list. -/
def AzureFileBase.ExcludeExts (b : AzureFileBase) (exts : List String) : AzureFileBase :=
  AzureFileBase.ofList (b.data.filter (fun x => !exts.contains x.ext))

/-- Contiguous-substring test on character lists (Python's `in` on `str`). -/
def strContainsSub (needle : List Char) : List Char → Bool
  | [] => needle.isEmpty
  | c :: rest => needle.isPrefixOf (c :: rest) || strContainsSub needle rest

/-- Non-regex search predicate (line 98):
`search.lower() in x.Name.lower()`. -/
def searchMatchPlain (search name : String) : Bool :=
  strContainsSub (pyLower search).data (pyLower name).data

/-- Regex search predicate (line 96):
`re.match('^.*(' + search + ').*$', x.Name.lower())`.  For a query free of
regex metacharacters (the only case the claims exercise) that pattern
matches exactly when the query text occurs verbatim in the LOWERCASED name;
the query itself is not lowercased and `re.match` is case-sensitive. -/
def searchMatchRegex (search name : String) : Bool :=
  strContainsSub search.data (pyLower name).data

/-- `Search` (lines 94-99): filter by the chosen predicate, returning a
fresh collection over the full backing list. -/
def AzureFileBase.Search (b : AzureFileBase) (search : String) (regex : Bool) :
    AzureFileBase :=
  AzureFileBase.ofList (b.data.filter (fun x =>
    if regex then searchMatchRegex search x.Name else searchMatchPlain search x.Name))

/-! ## The driver's filter selection (C5) -/

/-- Python truthiness of an optional extension list (`argparse` leaves the
attribute `None` when the flag is absent; an empty list is also falsy). -/
def pyTruthyList : Option (List String) → Bool
  | Option.none => false
  | Option.some l => !l.isEmpty

/-- Driver lines 181-182:
`if args.exclude: blobs = blobs.ExcludeExts(args.exclude)`
`elif args.include: blobs = blobs.IncludeExts(args.include)`. -/
def applyCliExtFilters (excludeArg includeArg : Option (List String))
    (blobs : AzureFileBase) : AzureFileBase :=
  if pyTruthyList excludeArg then blobs.ExcludeExts (excludeArg.getD [])
  else if pyTruthyList includeArg then blobs.IncludeExts (includeArg.getD [])
  else blobs

/-! ## The chunk/progress loop of `Download` (C7) -/

/-- The chunk sizes `resp.iter_content(chunk_size=1024)` yields for a body
of `n` bytes: `n / 1024` full 1024-byte chunks, then the shorter remainder
when `n` is not a multiple of 1024. -/
def iterContentChunks (n : Nat) : List Nat :=
  List.replicate (n / 1024) 1024 ++ (if n % 1024 = 0 then [] else [n % 1024])

/-- The body of the download loop (lines 63-67): for each chunk, first call
`block_write_callback(1024)` — the constant chunk_size, not the chunk's
length — then write the chunk (the `if chunk:` guard skips empty ones).
Returns the list of values reported to the callback and the bytes written. -/
def downloadChunkLoop : List Nat → List Nat × Nat
  | [] => ([], 0)
  | c :: rest =>
    let p := downloadChunkLoop rest
    (1024 :: p.1, (if c ≠ 0 then c else 0) + p.2)

/-- Total the callback reports over a download of an `n`-byte body. -/
def downloadReportedTotal (n : Nat) : Nat :=
  (downloadChunkLoop (iterContentChunks n)).1.sum

/-- Bytes actually written over a download of an `n`-byte body. -/
def downloadWrittenTotal (n : Nat) : Nat :=
  (downloadChunkLoop (iterContentChunks n)).2

/-! ## `DownloadThreaded`: the per-item unit of work (C4) -/

/-- The `requests` exceptions the download can raise.  `ConnectTimeout`
subclasses both `ConnectionError` and `Timeout`; `ReadTimeout` subclasses
only `Timeout`. -/
inductive ReqError where
  | connectionError
  | connectTimeout
  | readTimeout
  | otherError (msg : String)
deriving DecidableEq, Repr

/-- Whether `except requests.exceptions.ConnectionError` catches it. -/
def ReqError.catchesAsConnectionError : ReqError → Bool
  | ReqError.connectionError => true
  | ReqError.connectTimeout => true
  | _ => false

/-- What one `DownloadThreaded` invocation leaves behind: the exception
escaping it (if any) and whether `progress.remove_task` ran. -/
structure ThreadOutcome where
  propagated : Option ReqError
  taskRemoved : Bool
deriving DecidableEq, Repr

/-- `DownloadThreaded` (lines 130-141): `add_task`, then `try`
`f.Download(...)` `except requests.exceptions.ConnectionError` print, then
`remove_task`.  `remove_task` is only reached when the body terminated
normally or the exception was caught. -/
def downloadThreaded (result : Except ReqError Unit) : ThreadOutcome :=
  match result with
  | Except.ok _ => ThreadOutcome.mk Option.none true
  | Except.error e =>
    if e.catchesAsConnectionError then ThreadOutcome.mk Option.none true
    else ThreadOutcome.mk (Option.some e) false

/-! ## Theorems -/

/-- C1: the spec (and the `--output` flag, help text "Directory to save
files to") wants downloads rooted at the caller-supplied output root, but
`Download` ignores its `target` parameter and always roots the destination
at the module constant `output_dir = "./loot_new"`; the claim is right
about the intended behaviour and the code drops the flag — for every
descriptor and every requested root the written path is
`"./loot_new" ++ "/" ++ account ++ filepath`. -/
theorem C1_download_ignores_output_root :
    (∀ (f : AzureFile) (target : String),
      downloadTargetPath f target = output_dir ++ "/" ++ f.Account ++ f.filepath) ∧
    downloadTargetPath
      (AzureFile.mk "acct" "cont" "file.txt"
        "https://acct.blob.core.windows.net/cont/file.txt") "/custom/dir"
      = "./loot_new/acct/cont/file.txt" ∧
    output_dir = "./loot_new" :=
  ⟨fun _ _ => rfl, by decide, rfl⟩

/-- C2 counterexample: with a header callback supplied (as `DownloadThreaded`
always does) and no `content-length` header, the header phase raises
`TypeError` from `int(None)` — absence of the header IS an error, the
download does not proceed. -/
theorem C2_counterexample :
    downloadHeaderPhase [("ETag", "abc")] true
      = Except.error "TypeError: int() argument must be a string, not NoneType" := by
  decide

/-- C2 (amended): when `content-length` is present and numeric the callback
is invoked exactly once with that value; when it is absent, a supplied
callback makes `Download` raise `TypeError` (from `int(None)`), and only a
download run without a header callback proceeds. -/
theorem C2_header_phase :
    ∀ (headers : List (String × String)) (s : String) (n : Int),
      (headersGet headers "content-length" = Option.some s →
        pyIntOfStr? s = Option.some n →
        downloadHeaderPhase headers true = Except.ok [n]) ∧
      (headersGet headers "content-length" = Option.none →
        downloadHeaderPhase headers true
          = Except.error "TypeError: int() argument must be a string, not NoneType" ∧
        downloadHeaderPhase headers false = Except.ok []) := by
  intro headers s n
  constructor
  · intro h1 h2
    simp [downloadHeaderPhase, pyIntOfOptStr, h1, h2]
  · intro h1
    constructor
    · simp [downloadHeaderPhase, pyIntOfOptStr, h1]
    · simp [downloadHeaderPhase]

/-- C2 witness: the amended statement at concrete headers. -/
theorem C2_witness :
    downloadHeaderPhase [("Content-Length", "123")] true = Except.ok [123] ∧
    downloadHeaderPhase [("ETag", "abc")] true
      = Except.error "TypeError: int() argument must be a string, not NoneType" ∧
    downloadHeaderPhase [("ETag", "abc")] false = Except.ok [] :=
  ⟨(C2_header_phase [("Content-Length", "123")] "123" 123).1 (by decide) (by decide),
   (C2_header_phase [("ETag", "abc")] "" 0).2 (by decide)⟩

/-- C4 counterexample: a `ReadTimeout` (a network-layer timeout that is not
a `ConnectionError`) is NOT caught by `DownloadThreaded` — it escapes the
unit of work and `progress.remove_task` never runs. -/
theorem C4_counterexample :
    downloadThreaded (Except.error ReqError.readTimeout)
      = ThreadOutcome.mk (Option.some ReqError.readTimeout) false := by
  decide

/-- C4 (amended): `DownloadThreaded` catches exactly
`requests.exceptions.ConnectionError` (which includes `ConnectTimeout` but
not `ReadTimeout`): a caught failure is reported and the progress task
removed; any other exception propagates out of the unit of work — confined
to its future by the pool, but leaving the progress indicator behind.  On
success the task is removed. -/
theorem C4_unit_of_work :
    ∀ e : ReqError,
      (e.catchesAsConnectionError = true →
        downloadThreaded (Except.error e) = ThreadOutcome.mk Option.none true) ∧
      (e.catchesAsConnectionError = false →
        downloadThreaded (Except.error e) = ThreadOutcome.mk (Option.some e) false) ∧
      downloadThreaded (Except.ok ()) = ThreadOutcome.mk Option.none true := by
  intro e
  refine ⟨fun h => ?_, fun h => ?_, rfl⟩ <;> simp [downloadThreaded, h]

/-- C4 witness: the amended statement at a caught and an uncaught error. -/
theorem C4_witness :
    downloadThreaded (Except.error ReqError.connectionError)
      = ThreadOutcome.mk Option.none true ∧
    downloadThreaded (Except.error ReqError.readTimeout)
      = ThreadOutcome.mk (Option.some ReqError.readTimeout) false :=
  ⟨(C4_unit_of_work ReqError.connectionError).1 rfl,
   (C4_unit_of_work ReqError.readTimeout).2.1 rfl⟩

/-- C5 counterexample: with `--include pdf --exclude pdf` the driver drops
the pdf file (exclude is applied), whereas applying the include filter — as
the claim requires — would keep it. -/
theorem C5_counterexample :
    applyCliExtFilters (Option.some ["pdf"]) (Option.some ["pdf"])
      (AzureFileBase.ofList [AzureFile.mk "a" "c" "doc.pdf" "u"])
      = AzureFileBase.ofList [] ∧
    (AzureFileBase.ofList [AzureFile.mk "a" "c" "doc.pdf" "u"]).IncludeExts ["pdf"]
      = AzureFileBase.ofList [AzureFile.mk "a" "c" "doc.pdf" "u"] := by
  decide

/-- C5 (amended): `exclude` takes precedence — whenever a non-empty
`--exclude` list is supplied the driver applies the exclude filter and
ignores `--include` entirely (`if args.exclude: ... elif args.include:`). -/
theorem C5_exclude_precedence :
    ∀ (x : String) (xs : List String) (inc : Option (List String))
      (b : AzureFileBase),
      applyCliExtFilters (Option.some (x :: xs)) inc b = b.ExcludeExts (x :: xs) := by
  intro x xs inc b
  simp [applyCliExtFilters, pyTruthyList]

/-- C6 counterexample: in regex mode, over a collection holding the single
descriptor named `"Report2023.pdf"`, the query `"REPORT"` matches nothing
while `"report"` matches it — the regex-mode match is NOT unchanged under
changing the case of the query. -/
theorem C6_counterexample :
    (AzureFileBase.ofList
        [AzureFile.mk "a" "c" "Report2023.pdf" "u"]).Search "REPORT" true
      = AzureFileBase.ofList [] ∧
    (AzureFileBase.ofList
        [AzureFile.mk "a" "c" "Report2023.pdf" "u"]).Search "report" true
      = AzureFileBase.ofList [AzureFile.mk "a" "c" "Report2023.pdf" "u"] := by
  decide

/-- C6 (amended): non-regex search is fully case-insensitive (the match is
unchanged under any case change of the query or of the name); regex search
lowercases only the NAME, so it is case-insensitive in the name but
case-sensitive in the query — `"REPORT"` and `"report"` both match
`"Report2023.pdf"` in non-regex mode, but in regex mode only `"report"`
does. -/
theorem C6_search_case_sensitivity :
    (∀ (q1 q2 n : String), pyLower q1 = pyLower q2 →
      searchMatchPlain q1 n = searchMatchPlain q2 n) ∧
    (∀ (q n1 n2 : String), pyLower n1 = pyLower n2 →
      searchMatchPlain q n1 = searchMatchPlain q n2 ∧
      searchMatchRegex q n1 = searchMatchRegex q n2) ∧
    searchMatchPlain "REPORT" "Report2023.pdf" = true ∧
    searchMatchPlain "report" "Report2023.pdf" = true ∧
    searchMatchRegex "report" "Report2023.pdf" = true ∧
    searchMatchRegex "REPORT" "Report2023.pdf" = false := by
  refine ⟨fun q1 q2 n h => ?_, fun q n1 n2 h => ⟨?_, ?_⟩, by decide, by decide,
    by decide, by decide⟩ <;>
    simp [searchMatchPlain, searchMatchRegex, h]

/-- C6 witness: the amended statement applied at concrete strings. -/
theorem C6_witness :
    searchMatchPlain "AbC" "zabcz" = searchMatchPlain "aBc" "zabcz" ∧
    searchMatchPlain "q" "AqA" = searchMatchPlain "q" "aqa" ∧
    searchMatchRegex "q" "AqA" = searchMatchRegex "q" "aqa" :=
  ⟨C6_search_case_sensitivity.1 "AbC" "aBc" "zabcz" (by decide),
   (C6_search_case_sensitivity.2.1 "q" "AqA" "aqa" (by decide)).1,
   (C6_search_case_sensitivity.2.1 "q" "AqA" "aqa" (by decide)).2⟩

/-- C3 counterexample: on a listing with zero blob entries, `List` does not
return an empty collection — `xmltodict` parses the empty `Blobs` element
to `None` and subscripting it with `"Blob"` raises `TypeError`. -/
theorem C3_counterexample :
    azureClientList "acct" "cont" []
      = Except.error "TypeError: NoneType object is not subscriptable" ∧
    azureClientList "acct" "cont" [] ≠ Except.ok [] := by
  decide

/-- C3 (amended): a zero-entry listing makes `List` raise `TypeError`
(for every account and container), so no mode receives an empty
collection — the run aborts before table, extension or download
processing. -/
theorem C3_empty_listing_raises :
    ∀ (account container : String),
      azureClientList account container []
        = Except.error "TypeError: NoneType object is not subscriptable" :=
  fun _ _ => rfl

/-- C9: a single-entry listing always fails: the parsed single `<Blob>`
collapses to a mapping, iterating it yields its field-name strings, and
`b["Account"] = ...` on a string raises `TypeError`; a listing of two or
more well-formed entries does produce the descriptors. -/
theorem C9_single_blob_fails :
    (∀ (account container : String) (b : List (String × XVal)), b ≠ [] →
      azureClientList account container [b]
        = Except.error "TypeError: str object does not support item assignment") ∧
    azureClientList "acct" "cont"
      [[("Name", XVal.vstr "a.pdf"),
        ("Url", XVal.vstr "https://acct.blob.core.windows.net/cont/a.pdf")],
       [("Name", XVal.vstr "b.txt"),
        ("Url", XVal.vstr "https://acct.blob.core.windows.net/cont/b.txt")]]
      = Except.ok
        [AzureFile.mk "acct" "cont" "a.pdf"
          "https://acct.blob.core.windows.net/cont/a.pdf",
         AzureFile.mk "acct" "cont" "b.txt"
          "https://acct.blob.core.windows.net/cont/b.txt"] := by
  constructor
  · intro account container b hb
    match b with
    | [] => exact absurd rfl hb
    | kv :: rest => rfl
  · decide

/-- C9 witness: the single-entry failure at a concrete well-formed entry. -/
theorem C9_witness :
    azureClientList "acct" "cont"
      [[("Name", XVal.vstr "only.pdf"),
        ("Url", XVal.vstr "https://acct.blob.core.windows.net/cont/only.pdf")]]
      = Except.error "TypeError: str object does not support item assignment" :=
  C9_single_blob_fails.1 "acct" "cont" _ (List.cons_ne_nil _ _)

/-! ### Helper lemmas for the chunk loop -/

/-- The bytes-written component of the loop is the total of the chunk
sizes: the `if chunk:` guard merely skips writing empty chunks. -/
theorem downloadChunkLoop_written (chunks : List Nat) :
    (downloadChunkLoop chunks).2 = chunks.sum := by
  induction chunks with
  | nil => rfl
  | cons c rest ih =>
    simp only [downloadChunkLoop, List.sum_cons, ih]
    cases Nat.eq_zero_or_pos c with
    | inl h => simp [h]
    | inr h => simp [Nat.pos_iff_ne_zero.mp h]

/-- Every callback invocation reports the constant 1024, one per chunk. -/
theorem downloadChunkLoop_reported (chunks : List Nat) :
    (downloadChunkLoop chunks).1 = chunks.map (fun _ => 1024) := by
  induction chunks with
  | nil => rfl
  | cons c rest ih => simp [downloadChunkLoop, ih]

/-- Summing a constant over a list multiplies it by the length. -/
theorem sum_map_const_nat (chunks : List Nat) (k : Nat) :
    (chunks.map (fun _ => k)).sum = k * chunks.length := by
  induction chunks with
  | nil => rfl
  | cons c rest ih => simp [ih, Nat.mul_succ, Nat.add_comm, Nat.mul_comm]

/-- The chunks of an `n`-byte body total `n` bytes. -/
theorem iterContentChunks_sum (n : Nat) : (iterContentChunks n).sum = n := by
  unfold iterContentChunks
  by_cases h : n % 1024 = 0 <;>
    simp [h, List.sum_replicate, smul_eq_mul] <;> omega

/-- The number of chunks of an `n`-byte body. -/
theorem iterContentChunks_length (n : Nat) :
    (iterContentChunks n).length = n / 1024 + (if n % 1024 = 0 then 0 else 1) := by
  unfold iterContentChunks
  by_cases h : n % 1024 = 0 <;> simp [h]

/-- C7 counterexample: a 1500-byte body arrives as a 1024-byte chunk and a
476-byte final chunk; the callback reports `1024` both times, so the
reported total is 2048 while 1500 bytes are written — the sum of the
reported values does not equal the bytes written. -/
theorem C7_counterexample :
    downloadReportedTotal 1500 = 2048 ∧ downloadWrittenTotal 1500 = 1500 ∧
    downloadReportedTotal 1500 ≠ downloadWrittenTotal 1500 := by
  decide

/-- C7 (amended): `block_write_callback` is invoked once per chunk but
always with the constant `1024` (the configured chunk size), not the
chunk's actual length, and before the write; the reported total is
`1024 × (number of chunks)`, which equals the bytes written exactly when
the body length is a multiple of 1024 and overcounts otherwise. -/
theorem C7_progress_overcounts :
    ∀ n : Nat,
      downloadWrittenTotal n = n ∧
      downloadReportedTotal n = 1024 * (iterContentChunks n).length ∧
      (downloadReportedTotal n = downloadWrittenTotal n ↔ n % 1024 = 0) := by
  intro n
  have hw : downloadWrittenTotal n = n := by
    rw [downloadWrittenTotal, downloadChunkLoop_written, iterContentChunks_sum]
  have hr : downloadReportedTotal n = 1024 * (iterContentChunks n).length := by
    rw [downloadReportedTotal, downloadChunkLoop_reported, sum_map_const_nat]
  refine ⟨hw, hr, ?_⟩
  rw [hw, hr, iterContentChunks_length]
  by_cases h : n % 1024 = 0 <;> simp [h] <;> omega

/-! ### The iterator cursor (C10) -/

/-- Draining from cursor `c` yields the suffix of the backing list from
`c`, and leaves the cursor at `max c (length of data)` — in particular at
the length after a complete iteration, and unchanged once past the end. -/
theorem drain_eq (l : List AzureFile) (c : Nat) :
    AzureFileBase.drain (AzureFileBase.mk l c)
      = (l.drop c, AzureFileBase.mk l (max c l.length)) := by
  generalize hk : l.length - c = k
  induction k using Nat.strong_induction_on generalizing c with
  | _ k ih =>
    unfold AzureFileBase.drain
    simp only
    split
    case h_1 hnone =>
      have hle : l.length ≤ c := List.get?_eq_none.mp hnone
      have hd : l.drop c = [] := List.drop_eq_nil_of_le hle
      have hm : max c l.length = c := Nat.max_eq_left hle
      rw [hd, hm]
    case h_2 x hsome =>
      have hlt : c < l.length := (List.get?_eq_some.mp hsome).1
      have hrec := ih (l.length - (c + 1)) (by omega) (c + 1) rfl
      rw [hrec]
      have hdrop : l.drop c = x :: l.drop (c + 1) := by
        rw [List.drop_eq_getElem_cons hlt]
        have hx : l[c] = x := List.get?_eq_some.mp hsome |>.2
        rw [hx]
      rw [hdrop]
      have hm : max (c + 1) l.length = max c l.length := by omega
      rw [hm]

/-- C10: the collection object is its own iterator with a never-reset
cursor: a fresh collection drains to its full backing list leaving the
cursor at the end; draining the exhausted object again (any number of
times — the state is a fixed point) yields nothing; and the collections
built by `IncludeExts`, `ExcludeExts` and `Search` are fresh (cursor 0)
over the filtered backing list, so they drain from their first element
even when built from an exhausted object. -/
theorem C10_iterator_single_pass :
    ∀ (l : List AzureFile) (exts : List String) (q : String) (r : Bool),
      AzureFileBase.drain (AzureFileBase.ofList l)
        = (l, AzureFileBase.mk l l.length) ∧
      AzureFileBase.drain (AzureFileBase.mk l l.length)
        = ([], AzureFileBase.mk l l.length) ∧
      (AzureFileBase.mk l l.length).IncludeExts exts
        = AzureFileBase.ofList (l.filter (fun x => exts.contains x.ext)) ∧
      (AzureFileBase.drain ((AzureFileBase.mk l l.length).IncludeExts exts)).1
        = l.filter (fun x => exts.contains x.ext) ∧
      (AzureFileBase.drain ((AzureFileBase.mk l l.length).ExcludeExts exts)).1
        = l.filter (fun x => !exts.contains x.ext) ∧
      (AzureFileBase.drain ((AzureFileBase.mk l l.length).Search q r)).1
        = l.filter (fun x =>
            if r then searchMatchRegex q x.Name else searchMatchPlain q x.Name) := by
  intro l exts q r
  refine ⟨?_, ?_, rfl, ?_, ?_, ?_⟩
  · rw [AzureFileBase.ofList, drain_eq]
    simp
  · rw [drain_eq]
    simp
  · rw [AzureFileBase.IncludeExts, AzureFileBase.ofList, drain_eq]
    simp
  · rw [AzureFileBase.ExcludeExts, AzureFileBase.ofList, drain_eq]
    simp
  · rw [AzureFileBase.Search, AzureFileBase.ofList, drain_eq]
    simp

end AzureBlobInspector
